import Mathlib

/-!
Shallow embedding of the tyk gateway's basic-auth middleware
(`src/mw_basic_auth.go`) and error handler (`src/gateway/handler_error.go`).

Go strings are byte sequences; we model them as `List Char` where each
element stands for one byte (all bytes that matter here are below 256,
and base64-decoded bytes are re-embedded as code points 0-255, which is
an injective representation preserving equality and splitting at a byte).
External collaborators (the bcrypt library, the murmur3 library, the
session store, the key-derivation helpers that live outside these files)
are abstracted as function parameters.
-/

/-- A Go string, modelled as its byte/char sequence. -/
abbrev GoStr := List Char

/-- Shorthand to write a `GoStr` from a Lean string literal. -/
def gs (s : String) : GoStr := s.data

/-- Go `strings.Split(s, sep)` for a one-character separator:
splits around each instance of `sep`; `Split("", sep) = [""]`. -/
def splitOnChar (sep : Char) : GoStr → List GoStr
  | [] => [[]]
  | c :: cs =>
    match splitOnChar sep cs with
    | [] => [[]]
    | r :: rs => if c = sep then [] :: r :: rs else (c :: r) :: rs

/-- Go `strings.HasPrefix(s, pre)`. -/
def listStartsWith : GoStr → GoStr → Bool
  | _, [] => true
  | [], _ :: _ => false
  | c :: cs, p :: ps => c == p && listStartsWith cs ps

/-- Go `strings.TrimPrefix(s, pre)`: drops `pre` from the front of `s`
at most once, when present. -/
def listTrimStart (s pre : GoStr) : GoStr :=
  if listStartsWith s pre then s.drop pre.length else s

/-- Value of one character of the standard base64 alphabet. -/
def base64Val (c : Char) : Option Nat :=
  if 'A' ≤ c ∧ c ≤ 'Z' then some (c.toNat - 65)
  else if 'a' ≤ c ∧ c ≤ 'z' then some (c.toNat - 97 + 26)
  else if '0' ≤ c ∧ c ≤ '9' then some (c.toNat - 48 + 52)
  else if c = '+' then some 62
  else if c = '/' then some 63
  else none

/-- Decode a padded standard-base64 character stream, four characters at a
time, as Go's `encoding/base64` `StdEncoding` does: the input length must
be a multiple of four, `=` padding may only occur as the final one or two
characters, and no group may follow a padded group. -/
def decodeBase64Groups : GoStr → Option (List Nat)
  | [] => some []
  | c1 :: c2 :: c3 :: c4 :: rest =>
    match base64Val c1, base64Val c2 with
    | some v1, some v2 =>
      if c3 = '=' then
        if c4 = '=' ∧ rest = [] then some [v1 * 4 + v2 / 16] else none
      else
        match base64Val c3 with
        | some v3 =>
          if c4 = '=' then
            if rest = [] then some [v1 * 4 + v2 / 16, v2 % 16 * 16 + v3 / 4] else none
          else
            match base64Val c4 with
            | some v4 =>
              match decodeBase64Groups rest with
              | some tail =>
                some ((v1 * 4 + v2 / 16) :: (v2 % 16 * 16 + v3 / 4) :: (v3 % 4 * 64 + v4) :: tail)
              | none => none
            | none => none
        | none => none
    | _, _ => none
  | _ => none

/-- Go `base64.StdEncoding.DecodeString`: carriage returns and newlines are
ignored, everything else must be well-formed padded base64. -/
def decodeBase64 (s : GoStr) : Option (List Nat) :=
  decodeBase64Groups (s.filter (fun c => !(c == '\r' || c == '\n')))

/-- Go `string(bytes)`: re-embed a byte list as a `GoStr`. -/
def goString (bs : List Nat) : GoStr := bs.map Char.ofNat

/-- Result of `basicAuthHeaderCredentials`: the credential pair, the Go
`(err, code)` pair, and the `WWW-Authenticate` values added to the
response writer (Go `Header().Add` appends, `Header().Del` clears). -/
structure HeaderCredsOut where
  username : GoStr
  password : GoStr
  err : Option String
  code : Nat
  challenge : List String
deriving DecidableEq, Repr

/-- `mw_basic_auth.go` `requestForBasicAuth`: the challenge value added to
the `WWW-Authenticate` header, `Basic realm="<Spec.Name>"`. -/
def basicRealm (specName : String) : String :=
  "Basic realm=\"" ++ specName ++ "\""

/-- `mw_basic_auth.go` `basicAuthHeaderCredentials`: an absent header
fails 401 via `requestForBasicAuth` (adding the challenge header); a
header whose space-split is not exactly two tokens, whose payload is not
valid base64, or whose decoded payload does not colon-split into exactly
two values fails 400 with no challenge; otherwise the decoded pair is
returned with no error. -/
def basicAuthHeaderCredentials (specName : String) (authHeader : GoStr) : HeaderCredsOut :=
  if authHeader = [] then
    { username := [], password := [],
      err := some "Authorization field missing", code := 401,
      challenge := [basicRealm specName] }
  else
    match splitOnChar ' ' authHeader with
    | [_, payload] =>
      match decodeBase64 payload with
      | none =>
        { username := [], password := [],
          err := some "Attempted access with malformed header, auth data not encoded correctly",
          code := 400, challenge := [] }
      | some bytes =>
        match splitOnChar ':' (goString bytes) with
        | [u, p] => { username := u, password := p, err := none, code := 0, challenge := [] }
        | _ =>
          { username := [], password := [],
            err := some "Attempted access with malformed header, values not in basic auth format",
            code := 400, challenge := [] }
    | _ =>
      { username := [], password := [],
        err := some "Attempted access with malformed header, header not in basic auth format",
        code := 400, challenge := [] }

/-- The external cryptographic collaborators of `mw_basic_auth.go`:
`bcrypt.CompareHashAndPassword` (`none` on success, `some msg` on
mismatch or malformed hash) and the murmur3 fingerprint
`string(murmur3.New64().Write(pw).Sum(nil))`. -/
structure CryptoOracle where
  bcryptCompare : GoStr → GoStr → Option String
  murmur : GoStr → GoStr

/-- The `basicAuthCache` contents: entries `(key, fingerprint, ttlSeconds)`,
newest first; Go `cache.Set` replaces the entry for a key, which the
head-first `cacheGet` lookup reproduces. -/
abbrev AuthCache := List (GoStr × GoStr × Int)

/-- `basicAuthCache.Get`. -/
def cacheGet (c : AuthCache) (k : GoStr) : Option GoStr :=
  (c.find? (fun e => e.1 == k)).map (fun e => e.2.1)

/-- `mw_basic_auth.go` `defaultBasicAuthTTL` (60 seconds). -/
def defaultBasicAuthTTL : Int := 60

/-- `apidef` `BaseIdentityProvidedBy` values relevant to session binding. -/
inductive IdentitySource
  | basicAuthUser
  | unsetAuth
  | otherSource (value : String)
deriving DecidableEq, Repr

/-- Per-API configuration consumed by the middleware (`k.Spec` fields). -/
structure BasicAuthConf where
  name : String
  orgID : GoStr
  disableCaching : Bool
  cacheTTL : Int
  extractFromBody : Bool
  baseIdentityProvidedBy : IdentitySource
deriving DecidableEq, Repr

/-- Modelled from the spec: the stored identity's password-hash kind tag
(`user.HashBCrypt` / `user.HashPlainText`, constants not present under
`src/`); any other tag value is `otherHash`. -/
inductive HashKind
  | bcrypt
  | plainText
  | otherHash (value : String)
deriving DecidableEq, Repr

/-- The parts of a stored session record read by `ProcessRequest`
(`session.BasicAuthData`). -/
structure Session where
  basicAuthPassword : GoStr
  basicAuthHash : HashKind
deriving DecidableEq, Repr

/-- Outcome of one bcrypt verification call: the returned error, the cache
afterwards, and how many times the slow `bcrypt.CompareHashAndPassword`
was invoked. -/
structure BcryptOutcome where
  err : Option String
  cache : AuthCache
  slowCalls : Nat
deriving DecidableEq, Repr

/-- `mw_basic_auth.go` `doBcryptWithCache`: run the slow comparison; on
failure return its error (cache untouched); on success store the murmur3
fingerprint of the password under the stored hash string with the given
TTL. -/
def doBcryptWithCache (o : CryptoOracle) (cacheDuration : Int)
    (hashedPassword password : GoStr) (c : AuthCache) : BcryptOutcome :=
  match o.bcryptCompare hashedPassword password with
  | some e => { err := some e, cache := c, slowCalls := 1 }
  | none =>
    { err := none,
      cache := (hashedPassword, o.murmur password, cacheDuration) :: c,
      slowCalls := 1 }

/-- `mw_basic_auth.go` `compareHashAndPassword`: slow path when caching is
disabled; otherwise compute the TTL (per-API `CacheTTL` when positive,
else the 60-second default), look the stored hash up in the cache, run
`doBcryptWithCache` on a miss, and on a hit trust an equal fingerprint
(success, no slow call) while falling back to the slow comparison on a
fingerprint mismatch. -/
def compareHashAndPassword (o : CryptoOracle) (conf : BasicAuthConf)
    (hash password : GoStr) (c : AuthCache) : BcryptOutcome :=
  if conf.disableCaching then
    { err := o.bcryptCompare hash password, cache := c, slowCalls := 1 }
  else
    let cacheTTL := if conf.cacheTTL > 0 then conf.cacheTTL else defaultBasicAuthTTL
    match cacheGet c hash with
    | none => doBcryptWithCache o cacheTTL hash password c
    | some cachedPass =>
      if cachedPass ≠ o.murmur password then
        { err := o.bcryptCompare hash password, cache := c, slowCalls := 1 }
      else
        { err := none, cache := c, slowCalls := 0 }

/-- The external collaborators of `ProcessRequest`: the crypto oracle, the
session store (`CheckSessionAndIdentityForValidKey`), the global
`HashKeyFunction` setting, the credential-to-key derivations, and the
outcome of body-regex extraction. `generateToken` and
`generateTokenLegacy` are modelled from the spec: the canonical and
legacy identity-key derivations (`generateToken` /
`storage.GenerateToken`) live outside `src/`; the spec only fixes that
they are deterministic functions of `(orgID, username)`. The body-regex
engine is likewise external, so `bodyCreds` carries the outcome of
`basicAuthBodyCredentials` (every failure there is a 400 error). -/
structure GatewayEnv where
  crypto : CryptoOracle
  sessions : GoStr → Option Session
  hashKeyFunction : String
  generateToken : GoStr → GoStr → GoStr
  generateTokenLegacy : GoStr → GoStr → GoStr
  bodyCreds : Except String (GoStr × GoStr)

/-- Outcome of `ProcessRequest`: the Go `(err, code)` pair, the final
`WWW-Authenticate` values on the response, the session bound via
`ctxSetSession` (with the key it was bound under), the verification
cache afterwards, and the number of slow bcrypt calls made. -/
structure ProcessOutcome where
  err : Option String
  code : Nat
  challenge : List String
  boundSession : Option (GoStr × Session)
  cache : AuthCache
  slowCalls : Nat
deriving DecidableEq, Repr

/-- `mw_basic_auth.go` `handleAuthFail`: fire the event (not modelled),
then `requestForBasicAuth(w, "User not authorised")`, which adds the
challenge header and returns a 401. -/
def handleAuthFail (conf : BasicAuthConf) (challenge : List String)
    (c : AuthCache) (slow : Nat) : ProcessOutcome :=
  { err := some "User not authorised", code := 401,
    challenge := challenge ++ [basicRealm conf.name],
    boundSession := none, cache := c, slowCalls := slow }

/-- The success tail of `ProcessRequest`: bind the session onto the
request context when `BaseIdentityProvidedBy` is `BasicAuthUser` or
`UnsetAuth`, and return `(nil, http.StatusOK)`. -/
def authSuccess (conf : BasicAuthConf) (keyName : GoStr) (session : Session)
    (challenge : List String) (c : AuthCache) (slow : Nat) : ProcessOutcome :=
  { err := none, code := 200, challenge := challenge,
    boundSession :=
      match conf.baseIdentityProvidedBy with
      | .basicAuthUser => some (keyName, session)
      | .unsetAuth => some (keyName, session)
      | .otherSource _ => none,
    cache := c, slowCalls := slow }

/-- The `switch session.BasicAuthData.Hash` of `ProcessRequest`: bcrypt
sessions go through `compareHashAndPassword` (auth failure on error),
plain-text sessions through string equality, and any other hash kind
falls through the switch without any comparison. -/
def verifySession (o : CryptoOracle) (conf : BasicAuthConf) (keyName : GoStr)
    (session : Session) (password : GoStr) (challenge : List String)
    (c : AuthCache) : ProcessOutcome :=
  match session.basicAuthHash with
  | .bcrypt =>
    let r := compareHashAndPassword o conf session.basicAuthPassword password c
    match r.err with
    | some _ => handleAuthFail conf challenge r.cache r.slowCalls
    | none => authSuccess conf keyName session challenge r.cache r.slowCalls
  | .plainText =>
    if session.basicAuthPassword ≠ password then handleAuthFail conf challenge c 0
    else authSuccess conf keyName session challenge c 0
  | .otherHash _ => authSuccess conf keyName session challenge c 0

/-- The identity-resolution half of `ProcessRequest` (after credential
extraction succeeded): look up the canonical key; on a miss fail
outright when `HashKeyFunction` is empty, otherwise retry once with the
legacy key derived from the username with the organisation prefix
trimmed; a second miss fails. -/
def processAfterExtract (conf : BasicAuthConf) (env : GatewayEnv)
    (username password : GoStr) (challenge : List String)
    (c : AuthCache) : ProcessOutcome :=
  let keyName := env.generateToken conf.orgID username
  match env.sessions keyName with
  | some session => verifySession env.crypto conf keyName session password challenge c
  | none =>
    if env.hashKeyFunction = "" then handleAuthFail conf challenge c 0
    else
      let legacyKeyName := env.generateTokenLegacy conf.orgID (listTrimStart username conf.orgID)
      match env.sessions legacyKeyName with
      | some session => verifySession env.crypto conf legacyKeyName session password challenge c
      | none => handleAuthFail conf challenge c 0

/-- `mw_basic_auth.go` `ProcessRequest`: header extraction first; on its
failure, when body extraction is configured, delete any
`WWW-Authenticate` value and try the body; an extraction failure that
survives is returned as-is; otherwise resolution and verification run. -/
def ProcessRequest (conf : BasicAuthConf) (env : GatewayEnv)
    (authHeader : GoStr) (c : AuthCache) : ProcessOutcome :=
  let h := basicAuthHeaderCredentials conf.name authHeader
  match h.err with
  | none => processAfterExtract conf env h.username h.password h.challenge c
  | some e =>
    if conf.extractFromBody then
      match env.bodyCreds with
      | Except.ok up => processAfterExtract conf env up.1 up.2 [] c
      | Except.error msg =>
        { err := some msg, code := 400, challenge := [],
          boundSession := none, cache := c, slowCalls := 0 }
    else
      { err := some e, code := h.code, challenge := h.challenge,
        boundSession := none, cache := c, slowCalls := 0 }

/-- `handler_error.go` lines 178-181: prefix the request path with a
slash, then trim a single leading slash again when the result starts
with a double slash (`strings.TrimPrefix` removes the prefix once). -/
def normalizeRawPath (p : GoStr) : GoStr :=
  let q := '/' :: p
  if listStartsWith q (gs "//") then listTrimStart q (gs "/") else q

/-- Spec-side helper for the template-resolution order: the first
candidate present in the preloaded template set, else the default. -/
def firstAvailableTemplate (available : List String) : List String → String → String
  | [], dflt => dflt
  | c :: cs, dflt =>
    if available.contains c then c else firstAvailableTemplate available cs dflt

/-- `handler_error.go` template selection (lines 101-132): the extension
and response content type follow the request's `Content-Type`
(`application/xml` selects xml, anything else json — the `headers`
package constants are modelled from the spec); lookups try
`error_<code>.<ext>`, then `error.<ext>`, then `error.json`, the last
fallback overriding the response content type to `application/json`.
Returns the selected template name and the final content-type header. -/
def selectErrorTemplate (available : List String) (errCode : Int)
    (reqContentType : String) : String × String :=
  let templateExtension := if reqContentType = "application/xml" then "xml" else "json"
  let contentType :=
    if reqContentType = "application/xml" then "application/xml" else "application/json"
  let name1 := "error_" ++ toString errCode ++ "." ++ templateExtension
  if available.contains name1 then (name1, contentType)
  else
    let name2 := "error." ++ templateExtension
    if available.contains name2 then (name2, contentType)
    else ("error." ++ "json", "application/json")

/-- `handler_error.go` lines 257-264: the effective retention is the
API's `ExpireAnalyticsAfter` unless `EnforceOrgDataAge` is set and the
organisation's `OrgSessionExpiry` value is positive. -/
def analyticsExpiresAfter (apiRetention : Int) (enforceOrgDataAge : Bool)
    (orgExpireDataTime : Int) : Int :=
  if enforceOrgDataAge then
    (if orgExpireDataTime > 0 then orgExpireDataTime else apiRetention)
  else apiRetention

/-- `handler_error.go` `calcExpiry` (in seconds): now plus the retention,
with a zero retention replaced by 100 years (24h × 365 × 100). -/
def calcExpiry (nowSec expiresAfter : Int) : Int :=
  let expiry := if expiresAfter = 0 then 24 * 3600 * 365 * 100 else expiresAfter
  nowSec + expiry

/-- The analytics record's `ExpireAt` (in epoch seconds). -/
def analyticsExpiry (nowSec apiRetention : Int) (enforceOrgDataAge : Bool)
    (orgExpireDataTime : Int) : Int :=
  calcExpiry nowSec (analyticsExpiresAfter apiRetention enforceOrgDataAge orgExpireDataTime)

/-! ### Shared concrete fixtures for witnesses and counterexamples -/

/-- A bcrypt oracle that rejects every pair, with a constant murmur3
fingerprint (murmur3 is not injective, so a constant oracle is an
admissible instance of the abstracted external hash). -/
def bcryptRejectAll : GoStr → GoStr → Option String :=
  fun _ _ => some "crypto/bcrypt: hashedPassword is not the hash of the given password"

/-- A bcrypt oracle that accepts every pair. -/
def bcryptAcceptAll : GoStr → GoStr → Option String := fun _ _ => none

/-- A murmur fingerprint constantly equal to `"fp"`. -/
def murmurConstFp : GoStr → GoStr := fun _ => gs "fp"

/-- A caching-enabled per-API configuration with no explicit TTL. -/
def confCaching : BasicAuthConf :=
  { name := "api", orgID := [], disableCaching := false, cacheTTL := 0,
    extractFromBody := false, baseIdentityProvidedBy := .unsetAuth }

/-! ### Fixtures for the ProcessRequest witnesses -/

def conf8 : BasicAuthConf :=
  { name := "api", orgID := gs "org1", disableCaching := false, cacheTTL := 0,
    extractFromBody := false, baseIdentityProvidedBy := .basicAuthUser }

def env8 : GatewayEnv :=
  { crypto := ⟨bcryptRejectAll, murmurConstFp⟩,
    sessions := fun k => if k = gs "Lorg1user" then some ⟨gs "pw", .plainText⟩ else none,
    hashKeyFunction := "murmur64",
    generateToken := fun org u => org ++ u,
    generateTokenLegacy := fun org u => gs "L" ++ org ++ u,
    bodyCreds := Except.error "no body" }

def conf9 : BasicAuthConf :=
  { name := "api", orgID := [], disableCaching := false, cacheTTL := 0,
    extractFromBody := true, baseIdentityProvidedBy := .unsetAuth }

def env9 : GatewayEnv :=
  { crypto := ⟨bcryptRejectAll, murmurConstFp⟩,
    sessions := fun _ => none,
    hashKeyFunction := "",
    generateToken := fun _ u => u,
    generateTokenLegacy := fun _ u => u,
    bodyCreds := Except.error "Body do not contain username" }

def env10 : GatewayEnv :=
  { crypto := ⟨bcryptRejectAll, murmurConstFp⟩,
    sessions := fun _ => some ⟨gs "stored", .otherHash "md5"⟩,
    hashKeyFunction := "",
    generateToken := fun _ u => u,
    generateTokenLegacy := fun _ u => u,
    bodyCreds := Except.error "no body" }

/-! ### Helper lemmas about `splitOnChar` -/

theorem splitOnChar_ne_nil (sep : Char) (l : GoStr) : splitOnChar sep l ≠ [] := by
  induction l with
  | nil => simp [splitOnChar]
  | cons c cs ih =>
    simp only [splitOnChar]
    cases h : splitOnChar sep cs with
    | nil => simp
    | cons r rs =>
      by_cases hc : c = sep <;> simp [hc]

theorem splitOnChar_not_mem (sep : Char) (l : GoStr) (h : sep ∉ l) :
    splitOnChar sep l = [l] := by
  induction l with
  | nil => rfl
  | cons c cs ih =>
    have hc : ¬(c = sep) := fun he => h (he ▸ List.mem_cons_self c cs)
    have hcs : sep ∉ cs := fun hm => h (List.mem_cons_of_mem _ hm)
    simp [splitOnChar, ih hcs, hc]

theorem splitOnChar_append (sep : Char) (a b : GoStr) (ha : sep ∉ a) :
    splitOnChar sep (a ++ sep :: b) = a :: splitOnChar sep b := by
  induction a with
  | nil =>
    simp only [List.nil_append, splitOnChar]
    cases h : splitOnChar sep b with
    | nil => exact absurd h (splitOnChar_ne_nil sep b)
    | cons r rs => simp
  | cons x xs ih =>
    have hx : ¬(x = sep) := fun he => ha (he ▸ List.mem_cons_self x xs)
    have hxs : sep ∉ xs := fun hm => ha (List.mem_cons_of_mem _ hm)
    simp only [List.cons_append, splitOnChar, List.append_eq, ih hxs, hx, if_false]

theorem splitOnChar_single_sep (sep : Char) (a b : GoStr)
    (ha : sep ∉ a) (hb : sep ∉ b) :
    splitOnChar sep (a ++ sep :: b) = [a, b] := by
  rw [splitOnChar_append sep a b ha, splitOnChar_not_mem sep b hb]

/-! ### C1 -/

/-- C1: with caching enabled and a cache entry present for the stored
hash, an equal murmur3 fingerprint of the supplied password yields
success with no slow bcrypt call and an unchanged cache, and a differing
fingerprint yields exactly the result of the slow bcrypt comparison. -/
theorem c1_bcrypt_cache_hit (o : CryptoOracle) (conf : BasicAuthConf)
    (hash password fp : GoStr) (c : AuthCache)
    (hcaching : conf.disableCaching = false)
    (hhit : cacheGet c hash = some fp) :
    (fp = o.murmur password →
      compareHashAndPassword o conf hash password c =
        { err := none, cache := c, slowCalls := 0 })
    ∧ (fp ≠ o.murmur password →
      compareHashAndPassword o conf hash password c =
        { err := o.bcryptCompare hash password, cache := c, slowCalls := 1 }) := by
  constructor
  · intro hfp
    simp [compareHashAndPassword, hcaching, hhit, hfp]
  · intro hfp
    simp [compareHashAndPassword, hcaching, hhit, hfp]

theorem c1_bcrypt_cache_hit_witness :
    compareHashAndPassword ⟨bcryptRejectAll, murmurConstFp⟩ confCaching
      (gs "h") (gs "pw") [(gs "h", gs "fp", 60)] =
      { err := none, cache := [(gs "h", gs "fp", 60)], slowCalls := 0 } :=
  (c1_bcrypt_cache_hit ⟨bcryptRejectAll, murmurConstFp⟩ confCaching
    (gs "h") (gs "pw") (gs "fp") [(gs "h", gs "fp", 60)]
    rfl (by decide)).1 rfl

/-! ### C2 -/

/-- C2: with caching enabled and no cache entry for the stored hash, the
slow bcrypt comparison runs; on success an entry mapping the stored hash
to the murmur3 fingerprint of the password is stored with the per-API
`CacheTTL` when positive and 60 seconds otherwise; on failure the error
is returned and the cache is unchanged. -/
theorem c2_bcrypt_cache_miss (o : CryptoOracle) (conf : BasicAuthConf)
    (hash password : GoStr) (c : AuthCache)
    (hcaching : conf.disableCaching = false)
    (hmiss : cacheGet c hash = none) :
    (o.bcryptCompare hash password = none →
      compareHashAndPassword o conf hash password c =
        { err := none,
          cache := (hash, o.murmur password,
            if conf.cacheTTL > 0 then conf.cacheTTL else 60) :: c,
          slowCalls := 1 })
    ∧ (∀ e, o.bcryptCompare hash password = some e →
      compareHashAndPassword o conf hash password c =
        { err := some e, cache := c, slowCalls := 1 }) := by
  constructor
  · intro hok
    simp [compareHashAndPassword, doBcryptWithCache, hcaching, hmiss, hok,
      defaultBasicAuthTTL]
  · intro e he
    simp [compareHashAndPassword, doBcryptWithCache, hcaching, hmiss, he]

theorem c2_bcrypt_cache_miss_witness :
    compareHashAndPassword ⟨bcryptAcceptAll, murmurConstFp⟩
      { confCaching with cacheTTL := 30 } (gs "h") (gs "pw") [] =
      { err := none, cache := [(gs "h", gs "fp", 30)], slowCalls := 1 } := by
  have h := (c2_bcrypt_cache_miss ⟨bcryptAcceptAll, murmurConstFp⟩
    { confCaching with cacheTTL := 30 } (gs "h") (gs "pw") []
    rfl rfl).1 rfl
  simpa using h

/-! ### C3 -/

/-- C3 counterexample: the cache-hit fast path trusts an equal murmur3
fingerprint without running the slow comparison, so with a (collision-
prone, non-injective) fingerprint function a password the slow bcrypt
comparison rejects is reported as verified: the claim "a wrong password
is never accepted on the cache-hit path" is false. -/
theorem c3_counterexample :
    (compareHashAndPassword ⟨bcryptRejectAll, murmurConstFp⟩ confCaching
      (gs "h") (gs "wrong") [(gs "h", gs "fp", 60)]).err = none
    ∧ bcryptRejectAll (gs "h") (gs "wrong") ≠ none := by
  constructor
  · rfl
  · simp [bcryptRejectAll]

/-- C3 amended: on a cache hit, a supplied password whose murmur3
fingerprint differs from the cached fingerprint and that the slow bcrypt
comparison rejects is rejected (the slow result is propagated and the
outcome is never success); a password whose fingerprint collides with
the cached fingerprint is trusted without the authoritative check. -/
theorem c3_amended_wrong_password_rejected (o : CryptoOracle)
    (conf : BasicAuthConf) (hash password fp : GoStr) (c : AuthCache)
    (e : String)
    (hcaching : conf.disableCaching = false)
    (hhit : cacheGet c hash = some fp)
    (hfp : fp ≠ o.murmur password)
    (hwrong : o.bcryptCompare hash password = some e) :
    compareHashAndPassword o conf hash password c =
      { err := some e, cache := c, slowCalls := 1 }
    ∧ (compareHashAndPassword o conf hash password c).err ≠ none := by
  have h : compareHashAndPassword o conf hash password c =
      { err := some e, cache := c, slowCalls := 1 } := by
    simp [compareHashAndPassword, hcaching, hhit, hfp, hwrong]
  exact ⟨h, by simp [h]⟩

theorem c3_amended_wrong_password_rejected_witness :
    compareHashAndPassword
      ⟨bcryptRejectAll, fun _ => gs "pwfp"⟩ confCaching
      (gs "h") (gs "wrong") [(gs "h", gs "fp", 60)] =
      { err := some "crypto/bcrypt: hashedPassword is not the hash of the given password",
        cache := [(gs "h", gs "fp", 60)], slowCalls := 1 } :=
  (c3_amended_wrong_password_rejected
    ⟨bcryptRejectAll, fun _ => gs "pwfp"⟩ confCaching
    (gs "h") (gs "wrong") (gs "fp") [(gs "h", gs "fp", 60)]
    "crypto/bcrypt: hashedPassword is not the hash of the given password"
    rfl (by decide) (by decide) rfl).1

/-! ### C4 -/

/-- C4 counterexample: for the raw request path `//foo/bar` the recorded
raw path is `//foo/bar`, not `/foo/bar` — `strings.TrimPrefix` removes
only one of the three leading slashes of `///foo/bar`. -/
theorem c4_counterexample :
    normalizeRawPath (gs "//foo/bar") = gs "//foo/bar"
    ∧ normalizeRawPath (gs "//foo/bar") ≠ gs "/foo/bar" := by
  constructor
  · rfl
  · decide

/-- C4 amended: the normalization prefixes a leading slash and, when the
result begins with a double slash, trims exactly one slash; hence a path
already beginning with a slash (even several) is recorded unchanged and
only a slash-less path gains one: `//foo/bar` records as `//foo/bar`
while `/foo/bar` records as `/foo/bar`. -/
theorem c4_amended_path_normalization (p : GoStr) :
    normalizeRawPath p = (if listStartsWith p (gs "/") then p else '/' :: p)
    ∧ normalizeRawPath (gs "//foo/bar") = gs "//foo/bar"
    ∧ normalizeRawPath (gs "/foo/bar") = gs "/foo/bar" := by
  refine ⟨?_, rfl, rfl⟩
  cases p with
  | nil => rfl
  | cons c cs =>
    have hgs2 : gs "//" = ['/', '/'] := rfl
    have hgs1 : gs "/" = ['/'] := rfl
    by_cases hc : c = '/'
    · subst hc
      simp [normalizeRawPath, listStartsWith, listTrimStart, hgs1, hgs2]
    · simp [normalizeRawPath, listStartsWith, listTrimStart, hgs1, hgs2, hc]

/-! ### C7 -/

/-- C7: the analytics expiry is now plus the effective retention, where
the effective retention is the organisation data-age cap when
enforcement is on and the cap is positive, and the API's configured
retention otherwise; an effective retention of exactly zero yields now
plus 100 years (24h × 365 × 100 = 3153600000 seconds). -/
theorem c7_analytics_expiry (now api : Int) (enforce : Bool) (org : Int)
    (eff : Int)
    (heff : eff = if enforce = true ∧ org > 0 then org else api) :
    analyticsExpiresAfter api enforce org = eff
    ∧ (eff ≠ 0 → analyticsExpiry now api enforce org = now + eff)
    ∧ (eff = 0 → analyticsExpiry now api enforce org = now + 3153600000) := by
  subst heff
  have hval : analyticsExpiresAfter api enforce org =
      (if enforce = true ∧ org > 0 then org else api) := by
    cases enforce with
    | false => simp [analyticsExpiresAfter]
    | true =>
      by_cases ho : org > 0 <;> simp [analyticsExpiresAfter, ho]
  refine ⟨hval, ?_, ?_⟩
  · intro h0
    rw [analyticsExpiry, hval, calcExpiry]
    simp [h0]
  · intro h0
    rw [analyticsExpiry, hval, calcExpiry]
    simp [h0]

theorem c7_analytics_expiry_witness :
    analyticsExpiry 1000 3600 true 60 = 1000 + 60
    ∧ analyticsExpiry 1000 0 false 0 = 1000 + 3153600000 :=
  ⟨(c7_analytics_expiry 1000 3600 true 60 60 (by decide)).2.1 (by decide),
   (c7_analytics_expiry 1000 0 false 0 0 (by decide)).2.2 rfl⟩

/-! ### C5 helper lemmas -/

theorem headerCreds_success (specName : String) (scheme payload : GoStr)
    (bytes : List Nat) (u p : GoStr)
    (hs : ' ' ∉ scheme) (hp : ' ' ∉ payload)
    (hdec : decodeBase64 payload = some bytes)
    (hgo : goString bytes = u ++ ':' :: p)
    (hu : ':' ∉ u) (hpp : ':' ∉ p) :
    basicAuthHeaderCredentials specName (scheme ++ ' ' :: payload) =
      { username := u, password := p, err := none, code := 0, challenge := [] } := by
  have hne : scheme ++ ' ' :: payload ≠ ([] : GoStr) := by simp
  unfold basicAuthHeaderCredentials
  rw [if_neg hne, splitOnChar_single_sep ' ' scheme payload hs hp]
  simp only [hdec, hgo, splitOnChar_single_sep ':' u p hu hpp]

theorem headerCreds_token_count (specName : String) (header : GoStr)
    (hne : header ≠ []) (hlen : (splitOnChar ' ' header).length ≠ 2) :
    basicAuthHeaderCredentials specName header =
      { username := [], password := [],
        err := some "Attempted access with malformed header, header not in basic auth format",
        code := 400, challenge := [] } := by
  unfold basicAuthHeaderCredentials
  rw [if_neg hne]
  split
  · next x payload hsp => rw [hsp] at hlen; simp at hlen
  · rfl

theorem headerCreds_bad_base64 (specName : String) (scheme payload : GoStr)
    (hs : ' ' ∉ scheme) (hp : ' ' ∉ payload)
    (hdec : decodeBase64 payload = none) :
    basicAuthHeaderCredentials specName (scheme ++ ' ' :: payload) =
      { username := [], password := [],
        err := some "Attempted access with malformed header, auth data not encoded correctly",
        code := 400, challenge := [] } := by
  have hne : scheme ++ ' ' :: payload ≠ ([] : GoStr) := by simp
  unfold basicAuthHeaderCredentials
  rw [if_neg hne, splitOnChar_single_sep ' ' scheme payload hs hp]
  simp only [hdec]

theorem headerCreds_colon_count (specName : String) (scheme payload : GoStr)
    (bytes : List Nat)
    (hs : ' ' ∉ scheme) (hp : ' ' ∉ payload)
    (hdec : decodeBase64 payload = some bytes)
    (hlen : (splitOnChar ':' (goString bytes)).length ≠ 2) :
    basicAuthHeaderCredentials specName (scheme ++ ' ' :: payload) =
      { username := [], password := [],
        err := some "Attempted access with malformed header, values not in basic auth format",
        code := 400, challenge := [] } := by
  have hne : scheme ++ ' ' :: payload ≠ ([] : GoStr) := by simp
  unfold basicAuthHeaderCredentials
  rw [if_neg hne, splitOnChar_single_sep ' ' scheme payload hs hp]
  simp only [hdec]
  split
  · next u p hsp => rw [hsp] at hlen; simp at hlen
  · rfl

theorem headerCreds_challenge_of_ne_nil (specName : String) (header : GoStr)
    (hne : header ≠ []) :
    (basicAuthHeaderCredentials specName header).challenge = [] := by
  unfold basicAuthHeaderCredentials
  rw [if_neg hne]
  split
  · split
    · rfl
    · split
      · rfl
      · rfl
  · rfl

/-! ### C5 -/

/-- C5: an `Authorization` header of the form `<scheme> <payload>` whose
payload base64-decodes to a value with exactly one colon yields exactly
that `(user, pass)` pair with no error; an absent header yields a 401
with the `WWW-Authenticate` challenge set; a header that does not
space-split into exactly two tokens, an invalid base64 payload, or a
decoded payload that does not colon-split into exactly two parts yields
a 400 with no challenge. -/
theorem c5_header_credentials (specName : String) :
    (∀ (scheme payload : GoStr) (bytes : List Nat) (u p : GoStr),
      ' ' ∉ scheme → ' ' ∉ payload →
      decodeBase64 payload = some bytes →
      goString bytes = u ++ ':' :: p → ':' ∉ u → ':' ∉ p →
      basicAuthHeaderCredentials specName (scheme ++ ' ' :: payload) =
        { username := u, password := p, err := none, code := 0, challenge := [] })
    ∧ (basicAuthHeaderCredentials specName [] =
        { username := [], password := [],
          err := some "Authorization field missing", code := 401,
          challenge := [basicRealm specName] })
    ∧ (∀ header : GoStr, header ≠ [] → (splitOnChar ' ' header).length ≠ 2 →
        (basicAuthHeaderCredentials specName header).err ≠ none
        ∧ (basicAuthHeaderCredentials specName header).code = 400
        ∧ (basicAuthHeaderCredentials specName header).challenge = [])
    ∧ (∀ (scheme payload : GoStr), ' ' ∉ scheme → ' ' ∉ payload →
        decodeBase64 payload = none →
        (basicAuthHeaderCredentials specName (scheme ++ ' ' :: payload)).err ≠ none
        ∧ (basicAuthHeaderCredentials specName (scheme ++ ' ' :: payload)).code = 400
        ∧ (basicAuthHeaderCredentials specName (scheme ++ ' ' :: payload)).challenge = [])
    ∧ (∀ (scheme payload : GoStr) (bytes : List Nat), ' ' ∉ scheme → ' ' ∉ payload →
        decodeBase64 payload = some bytes →
        (splitOnChar ':' (goString bytes)).length ≠ 2 →
        (basicAuthHeaderCredentials specName (scheme ++ ' ' :: payload)).err ≠ none
        ∧ (basicAuthHeaderCredentials specName (scheme ++ ' ' :: payload)).code = 400
        ∧ (basicAuthHeaderCredentials specName (scheme ++ ' ' :: payload)).challenge = []) := by
  refine ⟨?_, ?_, ?_, ?_, ?_⟩
  · intro scheme payload bytes u p hs hp hdec hgo hu hpp
    exact headerCreds_success specName scheme payload bytes u p hs hp hdec hgo hu hpp
  · rfl
  · intro header hne hlen
    rw [headerCreds_token_count specName header hne hlen]
    exact ⟨by simp, rfl, rfl⟩
  · intro scheme payload hs hp hdec
    rw [headerCreds_bad_base64 specName scheme payload hs hp hdec]
    exact ⟨by simp, rfl, rfl⟩
  · intro scheme payload bytes hs hp hdec hlen
    rw [headerCreds_colon_count specName scheme payload bytes hs hp hdec hlen]
    exact ⟨by simp, rfl, rfl⟩

theorem c5_header_credentials_witness :
    basicAuthHeaderCredentials "api" (gs "Basic dXNlcjpwYXNz") =
      { username := gs "user", password := gs "pass", err := none, code := 0,
        challenge := [] } := by
  have hgs : gs "Basic dXNlcjpwYXNz" = gs "Basic" ++ ' ' :: gs "dXNlcjpwYXNz" := by decide
  rw [hgs]
  exact (c5_header_credentials "api").1 (gs "Basic") (gs "dXNlcjpwYXNz")
    [117, 115, 101, 114, 58, 112, 97, 115, 115] (gs "user") (gs "pass")
    (by decide) (by decide) (by decide) (by decide) (by decide) (by decide)

/-! ### C6 -/

/-- C6: the template is the first available of
`error_<code>.<ext>`, `error.<ext>`, `error.json`, where `<ext>` is
`xml` exactly when the request's `Content-Type` is `application/xml`
and `json` otherwise; the response content type matches the extension
except on the final `error.json` fallback, where it is overridden to
`application/json`. -/
theorem c6_template_selection (available : List String) (errCode : Int)
    (reqCT ext ct n1 n2 : String)
    (hext : ext = if reqCT = "application/xml" then "xml" else "json")
    (hct : ct = if reqCT = "application/xml" then "application/xml"
      else "application/json")
    (hn1 : n1 = "error_" ++ toString errCode ++ "." ++ ext)
    (hn2 : n2 = "error." ++ ext) :
    (selectErrorTemplate available errCode reqCT).1 =
        firstAvailableTemplate available [n1, n2] "error.json"
    ∧ (available.contains n1 = true →
        selectErrorTemplate available errCode reqCT = (n1, ct))
    ∧ (available.contains n1 = false → available.contains n2 = true →
        selectErrorTemplate available errCode reqCT = (n2, ct))
    ∧ (available.contains n1 = false → available.contains n2 = false →
        selectErrorTemplate available errCode reqCT =
          ("error.json", "application/json"))
    ∧ ((ext = "xml") ↔ reqCT = "application/xml") := by
  subst hext hct hn1 hn2
  refine ⟨?_, ?_, ?_, ?_, ?_⟩
  · simp only [selectErrorTemplate, firstAvailableTemplate]
    by_cases h1 : available.contains
        ("error_" ++ toString errCode ++ "." ++
          (if reqCT = "application/xml" then "xml" else "json")) = true
    · rw [if_pos h1, if_pos h1]
    · have h1n : ¬(available.contains
          ("error_" ++ toString errCode ++ "." ++
            (if reqCT = "application/xml" then "xml" else "json")) = true) := h1
      rw [if_neg h1n, if_neg h1n]
      by_cases h2 : available.contains
          ("error." ++ (if reqCT = "application/xml" then "xml" else "json")) = true
      · rw [if_pos h2, if_pos h2]
      · rw [if_neg h2, if_neg h2]
        rfl
  · intro h1
    simp only [selectErrorTemplate]
    rw [if_pos h1]
  · intro h1 h2
    have h1n : ¬(available.contains
        ("error_" ++ toString errCode ++ "." ++
          (if reqCT = "application/xml" then "xml" else "json")) = true) := by
      rw [h1]; decide
    simp only [selectErrorTemplate]
    rw [if_neg h1n, if_pos h2]
  · intro h1 h2
    have h1n : ¬(available.contains
        ("error_" ++ toString errCode ++ "." ++
          (if reqCT = "application/xml" then "xml" else "json")) = true) := by
      rw [h1]; decide
    have h2n : ¬(available.contains
        ("error." ++ (if reqCT = "application/xml" then "xml" else "json")) = true) := by
      rw [h2]; decide
    simp only [selectErrorTemplate]
    rw [if_neg h1n, if_neg h2n]
    rfl
  · by_cases hx : reqCT = "application/xml"
    · simp [hx]
    · rw [if_neg hx]
      exact iff_of_false (by decide) hx

theorem c6_template_selection_witness :
    selectErrorTemplate ["error.xml"] 404 "application/xml" =
      ("error.xml", "application/xml") :=
  (c6_template_selection ["error.xml"] 404 "application/xml" "xml"
    "application/xml" "error_404.xml" "error.xml"
    (by decide) (by decide) (by decide) (by decide)).2.2.1 (by decide) (by decide)

/-! ### C8 -/

/-- C8: after successful credential extraction, the canonical key
`generateToken(orgID, username)` is looked up first; exactly when that
lookup misses and legacy mode (`HashKeyFunction` non-empty) is enabled,
one retry runs with the legacy derivation on the username with the
organisation prefix trimmed, with no further fallback; a legacy hit
feeds the same verification as a canonical hit, whose authentication
outcome (error, status code, bound session record) does not depend on
which key produced the session; a miss of both derivations fails the
request. -/
theorem c8_identity_resolution (conf : BasicAuthConf) (env : GatewayEnv)
    (authHeader : GoStr) (c : AuthCache) (u p : GoStr)
    (hext : basicAuthHeaderCredentials conf.name authHeader =
      { username := u, password := p, err := none, code := 0, challenge := [] }) :
    (∀ s, env.sessions (env.generateToken conf.orgID u) = some s →
      ProcessRequest conf env authHeader c =
        verifySession env.crypto conf (env.generateToken conf.orgID u) s p [] c)
    ∧ (env.sessions (env.generateToken conf.orgID u) = none →
        env.hashKeyFunction = "" →
        ProcessRequest conf env authHeader c = handleAuthFail conf [] c 0)
    ∧ (∀ s, env.sessions (env.generateToken conf.orgID u) = none →
        env.hashKeyFunction ≠ "" →
        env.sessions (env.generateTokenLegacy conf.orgID
          (listTrimStart u conf.orgID)) = some s →
        ProcessRequest conf env authHeader c =
          verifySession env.crypto conf
            (env.generateTokenLegacy conf.orgID (listTrimStart u conf.orgID)) s p [] c)
    ∧ (env.sessions (env.generateToken conf.orgID u) = none →
        env.sessions (env.generateTokenLegacy conf.orgID
          (listTrimStart u conf.orgID)) = none →
        ProcessRequest conf env authHeader c = handleAuthFail conf [] c 0)
    ∧ (∀ (k1 k2 : GoStr) (s : Session),
        (verifySession env.crypto conf k1 s p [] c).err =
          (verifySession env.crypto conf k2 s p [] c).err
        ∧ (verifySession env.crypto conf k1 s p [] c).code =
          (verifySession env.crypto conf k2 s p [] c).code
        ∧ (verifySession env.crypto conf k1 s p [] c).boundSession.map Prod.snd =
          (verifySession env.crypto conf k2 s p [] c).boundSession.map Prod.snd) := by
  have hpr : ProcessRequest conf env authHeader c =
      processAfterExtract conf env u p [] c := by
    simp only [ProcessRequest, hext]
  refine ⟨?_, ?_, ?_, ?_, ?_⟩
  · intro s hs
    rw [hpr]
    simp only [processAfterExtract, hs]
  · intro hmiss hk
    rw [hpr]
    simp [processAfterExtract, hmiss, hk]
  · intro s hmiss hk hleg
    rw [hpr]
    simp only [processAfterExtract, hmiss, hleg, if_neg hk]
  · intro hmiss hleg
    rw [hpr]
    by_cases hk : env.hashKeyFunction = ""
    · simp [processAfterExtract, hmiss, hk]
    · simp only [processAfterExtract, hmiss, hleg, if_neg hk]
  · intro k1 k2 s
    cases hh : s.basicAuthHash with
    | bcrypt =>
      simp only [verifySession, hh]
      cases he : (compareHashAndPassword env.crypto conf s.basicAuthPassword p c).err with
      | none =>
        cases hb : conf.baseIdentityProvidedBy <;>
          simp [authSuccess, hb]
      | some e => simp
    | plainText =>
      simp only [verifySession, hh]
      by_cases hq : s.basicAuthPassword ≠ p
      · rw [if_pos hq, if_pos hq]
        exact ⟨rfl, rfl, rfl⟩
      · rw [if_neg hq, if_neg hq]
        cases hb : conf.baseIdentityProvidedBy <;>
          simp [authSuccess, hb]
    | otherHash v =>
      simp only [verifySession, hh]
      cases hb : conf.baseIdentityProvidedBy <;>
        simp [authSuccess, hb]

theorem c8_identity_resolution_witness :
    ProcessRequest conf8 env8 (gs "Basic b3JnMXVzZXI6cHc=") [] =
      verifySession env8.crypto conf8
        (env8.generateTokenLegacy conf8.orgID (listTrimStart (gs "org1user") conf8.orgID))
        ⟨gs "pw", .plainText⟩ (gs "pw") [] [] :=
  (c8_identity_resolution conf8 env8 (gs "Basic b3JnMXVzZXI6cHc=") []
      (gs "org1user") (gs "pw") (by decide)).2.2.1
    ⟨gs "pw", .plainText⟩ (by decide) (by decide) (by decide)

/-! ### C9 -/

/-- C9 counterexample: with an absent `Authorization` header and body
extraction configured but failing (all extraction attempts exhausted),
the failure response carries no `WWW-Authenticate` challenge — the
challenge set by header extraction is deleted before the body attempt —
contradicting the claim that it is present. -/
theorem c9_counterexample :
    (ProcessRequest conf9 env9 [] []).err = some "Body do not contain username"
    ∧ (ProcessRequest conf9 env9 [] []).code = 400
    ∧ (ProcessRequest conf9 env9 [] []).challenge = [] :=
  ⟨rfl, rfl, rfl⟩

/-- C9 amended: an exhausted extraction failure carries the
`WWW-Authenticate` challenge exactly when body extraction is not
configured and the `Authorization` header was absent (401); a present
but malformed header without body extraction fails with no challenge;
and when body extraction is configured, a failure of both attempts
propagates the body error as a 400 with no challenge, the header
challenge having been deleted before the body attempt. -/
theorem c9_amended_challenge (conf : BasicAuthConf) (env : GatewayEnv)
    (authHeader : GoStr) (c : AuthCache) :
    (conf.extractFromBody = false → ∀ e,
      (basicAuthHeaderCredentials conf.name authHeader).err = some e →
      ProcessRequest conf env authHeader c =
        { err := some e,
          code := (basicAuthHeaderCredentials conf.name authHeader).code,
          challenge := (basicAuthHeaderCredentials conf.name authHeader).challenge,
          boundSession := none, cache := c, slowCalls := 0 })
    ∧ (authHeader = [] →
        (basicAuthHeaderCredentials conf.name authHeader).challenge =
          [basicRealm conf.name]
        ∧ (basicAuthHeaderCredentials conf.name authHeader).code = 401)
    ∧ (authHeader ≠ [] →
        (basicAuthHeaderCredentials conf.name authHeader).challenge = [])
    ∧ (conf.extractFromBody = true → ∀ e m,
        (basicAuthHeaderCredentials conf.name authHeader).err = some e →
        env.bodyCreds = Except.error m →
        ProcessRequest conf env authHeader c =
          { err := some m, code := 400, challenge := [],
            boundSession := none, cache := c, slowCalls := 0 }) := by
  refine ⟨?_, ?_, ?_, ?_⟩
  · intro hb e he
    simp only [ProcessRequest, he, hb, Bool.false_eq_true, if_false]
  · intro h0
    subst h0
    exact ⟨rfl, rfl⟩
  · exact headerCreds_challenge_of_ne_nil conf.name authHeader
  · intro hb e m he hm
    simp only [ProcessRequest, he, hb, hm, if_true]

theorem c9_amended_challenge_witness :
    ProcessRequest confCaching env9 [] [] =
      { err := some "Authorization field missing", code := 401,
        challenge := [basicRealm "api"], boundSession := none,
        cache := [], slowCalls := 0 } := by
  have h := (c9_amended_challenge confCaching env9 [] []).1 rfl
    "Authorization field missing" rfl
  rw [h]
  rfl

/-! ### C10 -/

/-- C10: when the resolved session's hash kind is neither BCrypt nor
PlainText, the hash switch falls through without any password
comparison: the request authenticates with status 200, no slow bcrypt
call, an unchanged cache, and an outcome (`authSuccess`) in which the
supplied password does not occur — every supplied password succeeds. -/
theorem c10_unknown_hash_kind (conf : BasicAuthConf) (env : GatewayEnv)
    (authHeader : GoStr) (c : AuthCache) (u p : GoStr) (s : Session) (v : String)
    (hext : basicAuthHeaderCredentials conf.name authHeader =
      { username := u, password := p, err := none, code := 0, challenge := [] })
    (hs : env.sessions (env.generateToken conf.orgID u) = some s)
    (hk : s.basicAuthHash = HashKind.otherHash v) :
    ProcessRequest conf env authHeader c =
      authSuccess conf (env.generateToken conf.orgID u) s [] c 0
    ∧ (ProcessRequest conf env authHeader c).err = none
    ∧ (ProcessRequest conf env authHeader c).code = 200
    ∧ (ProcessRequest conf env authHeader c).slowCalls = 0
    ∧ (ProcessRequest conf env authHeader c).cache = c := by
  have h : ProcessRequest conf env authHeader c =
      authSuccess conf (env.generateToken conf.orgID u) s [] c 0 := by
    simp only [ProcessRequest, hext, processAfterExtract, hs, verifySession, hk]
  exact ⟨h, by rw [h]; rfl, by rw [h]; rfl, by rw [h]; rfl, by rw [h]; rfl⟩

theorem c10_unknown_hash_kind_witness :
    ProcessRequest confCaching env10 (gs "Basic dXNlcjpwYXNz") [] =
      authSuccess confCaching (gs "user") ⟨gs "stored", .otherHash "md5"⟩ [] [] 0 :=
  (c10_unknown_hash_kind confCaching env10 (gs "Basic dXNlcjpwYXNz") []
    (gs "user") (gs "pass") ⟨gs "stored", .otherHash "md5"⟩ "md5"
    (by decide) rfl rfl).1
